import Mathlib

/-!
Verification of the quic_echo repository (a QUIC echo server and client)
against its natural-language specification.

The transport (quinn/rustls) is a black box per the spec; the embedding below
models the repository's own control flow and constants:
  - src/src/bin/quic_echo_server.rs : ALPN constant, handle_incoming
    (datagram echo worker, stream-accept loop, per-stream echo task);
  - src/src/bin/quic_echo_client.rs : ALPN constant, SkipServerVerification,
    route_get, and the main exchange (datagram mode and stream mode).

Asynchronous I/O is embedded by explicit event traces: each worker is a
function from the finite trace of I/O results it consumes to the record of
what it did (bytes written, datagrams sent, whether and how it terminated).
Doc comments on each definition name the source lines embedded. -/

set_option linter.unusedVariables false

namespace QuicEcho

/-! ## ALPN constants (server line 52, client line 59) -/

/-- The constant ALPN at src/src/bin/quic_echo_server.rs line 52. -/
def Server.ALPN : String := "freven-quic-test"

/-- Server: tls.alpn_protocols = vec![ALPN.to_vec()] (line 88): a one-element
list holding the ALPN constant. -/
def Server.alpn_protocols : List String := [Server.ALPN]

/-- The constant ALPN at src/src/bin/quic_echo_client.rs line 59. -/
def Client.ALPN : String := "freven-quic-test"

/-- Client: tls.alpn_protocols = vec![ALPN.to_vec()] (line 109). -/
def Client.alpn_protocols : List String := [Client.ALPN]

/-! ## Certificate trust policy (client lines 61-101) -/

/-- Opaque model of a rustls::Error value. -/
abbrev TlsError := Nat

/-- Model of rustls danger::ServerCertVerified (a unit-like token). -/
inductive ServerCertVerified
  | assertion
  deriving DecidableEq

/-- Model of rustls danger::HandshakeSignatureValid. -/
inductive HandshakeSignatureValid
  | assertion
  deriving DecidableEq

/-- SkipServerVerification::verify_server_cert (client lines 69-78): every
argument is ignored and Ok(ServerCertVerified::assertion()) is returned. -/
def verify_server_cert (endEntity : List Nat) (intermediates : List (List Nat))
    (serverName : String) (ocsp : List Nat) (now : Nat) :
    Except TlsError ServerCertVerified :=
  Except.ok ServerCertVerified.assertion

/-- SkipServerVerification::verify_tls12_signature (client lines 80-87): the
call is delegated verbatim to the crypto provider's free function
verify_tls12_signature with the provider's signature-verification algorithms.
The external provider function is a parameter of the embedding. -/
def skip_verify_tls12_signature
    (providerVerify : List Nat → List Nat → List Nat → Except TlsError HandshakeSignatureValid)
    (message : List Nat) (cert : List Nat) (dss : List Nat) :
    Except TlsError HandshakeSignatureValid :=
  providerVerify message cert dss

/-- SkipServerVerification::verify_tls13_signature (client lines 89-96):
delegates verbatim to the provider's verify_tls13_signature. -/
def skip_verify_tls13_signature
    (providerVerify : List Nat → List Nat → List Nat → Except TlsError HandshakeSignatureValid)
    (message : List Nat) (cert : List Nat) (dss : List Nat) :
    Except TlsError HandshakeSignatureValid :=
  providerVerify message cert dss

/-! ## Connection errors (quinn::ConnectionError variants, as matched by the
server at lines 145-149) -/

/-- The variants of quinn::ConnectionError. The server's accept loop matches
on ApplicationClosed specifically; payloads are abstracted to codes. -/
inductive ConnectionError
  | versionMismatch
  | transportFault (code : Nat)
  | connectionClosed (code : Nat)
  | applicationClosed (code : Nat)
  | reset
  | timedOut
  | locallyClosed
  | cidsExhausted
  deriving DecidableEq

/-- True exactly on the ApplicationClosed variant. -/
def isApplicationClosed : ConnectionError → Bool
  | ConnectionError.applicationClosed _ => true
  | _ => false

/-! ## Datagram echo worker (server lines 134-141) -/

/-- One result of dgram_conn.read_datagram().await in the worker's while-let
condition: Ok(bytes) or a connection error. -/
inductive DgramEvent
  | recvOk (data : List Nat)
  | recvErr (e : ConnectionError)
  deriving DecidableEq

/-- Result of one dgram_conn.send_datagram(data) call. -/
inductive SendDgramRes
  | sOk
  | sErr
  deriving DecidableEq

/-- What a finite run of the datagram echo worker did: the payloads passed to
send_datagram in order, how many send failures were logged, and whether the
while-let loop exited (it exits exactly when read_datagram yields Err). -/
structure DgramWorkerRun where
  sent : List (List Nat)
  loggedFailures : Nat
  terminated : Bool
  deriving DecidableEq

/-- The datagram echo worker (server lines 135-141):
while let Ok(data) = read_datagram { if send_datagram(data) errs, log }.
The argument send gives the result of the i-th send_datagram call; the trace
lists the successive read_datagram results. An exhausted trace means the
worker is still waiting (terminated = false). -/
def datagramWorker (send : Nat → SendDgramRes) :
    List DgramEvent → Nat → DgramWorkerRun
  | [], _ => { sent := [], loggedFailures := 0, terminated := false }
  | DgramEvent.recvErr _ :: _, _ =>
      { sent := [], loggedFailures := 0, terminated := true }
  | DgramEvent.recvOk d :: es, i =>
      let rest := datagramWorker send es (i + 1)
      { sent := d :: rest.sent,
        loggedFailures := (if send i = SendDgramRes.sErr then 1 else 0) + rest.loggedFailures,
        terminated := rest.terminated }

/-- True exactly on a receive-error event. -/
def isRecvErr : DgramEvent → Bool
  | DgramEvent.recvErr _ => true
  | DgramEvent.recvOk _ => false

/-! ## Per-stream echo task (server lines 151-170) -/

/-- One result of AsyncReadExt::read(&mut recv, &mut buf): Ok with the bytes
read (at most the 16 KiB buffer; empty list models Ok(0)) or Err. -/
inductive StreamReadRes
  | ok (data : List Nat)
  | err
  deriving DecidableEq

/-- Result of one write_all call in the per-stream echo task. -/
inductive WriteRes
  | wOk
  | wErr
  deriving DecidableEq

/-- The per-stream echo task (server lines 151-170). It loops:
Ok(0) => finish the send half and break; Ok(n) => write_all those n bytes
(break on write error); Err(_) => break. The result is (bytes written in
order, whether finish() was reached). writes gives the result of the i-th
write_all call; the trace lists the successive read results. -/
def echoTask (writes : Nat → WriteRes) :
    List StreamReadRes → Nat → (List Nat × Bool)
  | [], _ => ([], false)
  | StreamReadRes.err :: _, _ => ([], false)
  | StreamReadRes.ok d :: rs, i =>
      if d = [] then ([], true)
      else
        match writes i with
        | WriteRes.wErr => ([], false)
        | WriteRes.wOk =>
            let rest := echoTask writes rs (i + 1)
            (d ++ rest.1, rest.2)

/-! ## Server stream-accept loop and supervisor (server lines 122-172) -/

/-- One result of conn.accept_bi().await: a new stream, or a connection
error. -/
inductive AcceptBiRes
  | stream
  | err (e : ConnectionError)
  deriving DecidableEq

/-- The stream-accept loop (server lines 144-149): Ok => spawn a per-stream
echo task and continue; Err(ApplicationClosed with any payload) => return
Ok(()); Err(e) => return Err(e). none models a loop still waiting on
accept_bi. -/
def streamAcceptLoop : List AcceptBiRes → Option (Except ConnectionError Unit)
  | [] => none
  | AcceptBiRes.stream :: rs => streamAcceptLoop rs
  | AcceptBiRes.err (ConnectionError.applicationClosed _) :: _ =>
      some (Except.ok ())
  | AcceptBiRes.err e :: _ => some (Except.error e)

/-- How a unit of work is scheduled inside handle_incoming: as a detached
tokio::spawn task, or awaited inline in handle_incoming's own body. -/
inductive TaskScheduling
  | spawnedTask
  | inlineAwait
  deriving DecidableEq

/-- Scheduling structure of handle_incoming. -/
structure HandleIncomingStructure where
  datagramWorkerScheduling : TaskScheduling
  streamAcceptLoopScheduling : TaskScheduling
  perStreamTaskScheduling : TaskScheduling
  deriving DecidableEq

/-- Read off src/src/bin/quic_echo_server.rs lines 122-172: the datagram
worker is tokio::spawn-ed (line 135); the stream-accept loop is the inline
tail of handle_incoming (loop at line 144, no spawn around it); each accepted
stream's echo task is tokio::spawn-ed (line 151). -/
def handle_incoming_structure : HandleIncomingStructure :=
  { datagramWorkerScheduling := TaskScheduling.spawnedTask,
    streamAcceptLoopScheduling := TaskScheduling.inlineAwait,
    perStreamTaskScheduling := TaskScheduling.spawnedTask }

/-- Observable outcome of one handle_incoming run over a given accept-bi
trace: the datagram worker got spawned, and handle_incoming's return value is
exactly the stream-accept loop's outcome (none while the loop is still
waiting, i.e. handle_incoming has not returned yet). -/
structure HandleIncomingRun where
  spawnedDatagramWorker : Bool
  result : Option (Except ConnectionError Unit)

/-- handle_incoming (server lines 122-172) after the handshake: spawns the
datagram worker, then runs the stream-accept loop inline; its return value is
whatever the loop returns. -/
def handle_incoming (trace : List AcceptBiRes) : HandleIncomingRun :=
  { spawnedDatagramWorker := true,
    result := streamAcceptLoop trace }

/-! ## Client exchange (client lines 162-221) -/

/-- Modelled from the spec: the transport collaborator's size-limited
read-to-end operation used by the client (quinn RecvStream::read_to_end,
not part of this repository). Per its documented semantics it yields the
full stream content, and fails with a too-long error when the content
exceeds the size limit; it never truncates. -/
inductive ReadToEndError
  | tooLong
  | readFault (code : Nat)
  deriving DecidableEq

/-- Modelled from the spec: read_to_end(sizeLimit) over a stream whose total
content is given: error tooLong if the content exceeds the limit, otherwise
the whole content. -/
def read_to_end (sizeLimit : Nat) (content : List Nat) :
    Except ReadToEndError (List Nat) :=
  if sizeLimit < content.length then Except.error ReadToEndError.tooLong
  else Except.ok content

/-- The client's stream read budget: read_to_end(64 * 1024) at client
line 216. -/
def streamReadBudget : Nat := 64 * 1024

/-- The client's exchange timeout: Duration::from_secs(5) at client
lines 210 and 216. -/
def exchangeTimeoutSecs : Nat := 5

/-- The variants of quinn::SendDatagramError (result of send_datagram at
client line 209). -/
inductive SendDatagramError
  | unsupportedByPeer
  | disabled
  | tooLarge
  | connectionLost (e : ConnectionError)
  deriving DecidableEq

/-- The distinct failure outcomes of one client run's exchange phase, each
produced by one of the question-mark operators at client lines 208-218. -/
inductive ClientFailure
  | dgramSendFailed (e : SendDatagramError)
  | timeoutExpired
  | connFailed (e : ConnectionError)
  | readFailed (e : ReadToEndError)
  | openFailed (e : ConnectionError)
  | writeFailed
  | finishFailed
  deriving DecidableEq

/-- Result of awaiting a receive under tokio::time::timeout: either the
deadline elapsed, or the inner future completed in time with a value. -/
inductive RecvWithin (α : Type)
  | elapsed
  | onTime (a : α)

/-- Datagram-mode exchange (client lines 208-211):
send_datagram(ping)?; then timeout(5s, read_datagram()).await?? — the outer
question mark turns an elapsed timeout into a failure, the inner one a
connection error into a failure. -/
def datagramExchange (sendRes : Except SendDatagramError Unit)
    (recv : RecvWithin (Except ConnectionError (List Nat))) :
    Except ClientFailure (List Nat) :=
  match sendRes with
  | Except.error e => Except.error (ClientFailure.dgramSendFailed e)
  | Except.ok _ =>
      match recv with
      | RecvWithin.elapsed => Except.error ClientFailure.timeoutExpired
      | RecvWithin.onTime (Except.error e) =>
          Except.error (ClientFailure.connFailed e)
      | RecvWithin.onTime (Except.ok d) => Except.ok d

/-- Stream-mode exchange (client lines 212-217): open_bi()?; write_all?;
finish()?; then timeout(5s, read_to_end(64 * 1024)).await??. -/
def streamExchange (openRes : Except ConnectionError Unit)
    (writeRes : Except Nat Unit) (finishRes : Except Nat Unit)
    (recv : RecvWithin (Except ReadToEndError (List Nat))) :
    Except ClientFailure (List Nat) :=
  match openRes with
  | Except.error e => Except.error (ClientFailure.openFailed e)
  | Except.ok _ =>
      match writeRes with
      | Except.error _ => Except.error ClientFailure.writeFailed
      | Except.ok _ =>
          match finishRes with
          | Except.error _ => Except.error ClientFailure.finishFailed
          | Except.ok _ =>
              match recv with
              | RecvWithin.elapsed => Except.error ClientFailure.timeoutExpired
              | RecvWithin.onTime (Except.error e) =>
                  Except.error (ClientFailure.readFailed e)
              | RecvWithin.onTime (Except.ok d) => Except.ok d

/-! ## Client route probe (client lines 114-150, 188-198) -/

/-- First token equal to the keyword, then the following token (models the
first regex capture after the keyword in whitespace-separated route_get
output). -/
def findAfter (keyword : String) : List String → Option String
  | [] => none
  | t :: rest => if t = keyword then rest.head? else findAfter keyword rest

/-- route_get (client lines 114-150). The argument is the outcome of running
the ip route command: none if the command failed to run, some out for its
stdout. Returns (src, dev): dev from the token after dev, src from the token
after src, falling back to the token after from; none for a missing field. -/
def route_get (cmdOutput : Option String) : Option String × Option String :=
  match cmdOutput with
  | none => (none, none)
  | some out =>
      let toks := (out.split Char.isWhitespace).filter (fun t => ¬(t = ""))
      let dev := findAfter "dev" toks
      let src :=
        match findAfter "src" toks with
        | some s => some s
        | none => findAfter "from" toks
      (src, dev)

/-- The client main's pre-connect phase (lines 188-198): what the route-probe
diagnostic line prints, and whether the connect call is reached. -/
structure PreConnectPhase where
  printedSrc : String
  printedDev : String
  connectAttempted : Bool
  deriving DecidableEq

/-- Client main lines 188-198: route_get feeds only the println (with
unwrap_or "unknown" on each field); endpoint.connect at line 198 follows
unconditionally. -/
def preConnect (cmdOutput : Option String) : PreConnectPhase :=
  let r := route_get cmdOutput
  { printedSrc := r.1.getD "unknown",
    printedDev := r.2.getD "unknown",
    connectAttempted := true }

/-! ## Helper lemmas -/

/-- With every write succeeding, the echo task writes back the concatenation
of the nonempty chunks it reads and reaches finish() on the zero-length
read. -/
lemma echoTask_all_writes_ok (chunks : List (List Nat))
    (h : ∀ c ∈ chunks, c ≠ []) :
    ∀ i, echoTask (fun _ => WriteRes.wOk)
      (chunks.map StreamReadRes.ok ++ [StreamReadRes.ok []]) i =
      (chunks.flatten, true) := by
  induction chunks with
  | nil => intro i; simp [echoTask]
  | cons c cs ih =>
      intro i
      have hc : c ≠ [] := h c (by simp)
      simp [echoTask, hc, ih (fun x hx => h x (by simp [hx]))]

/-- The datagram worker echoes back exactly the received payloads while
receives keep succeeding (trace of successful receives only). -/
lemma datagramWorker_sent_ok (send : Nat → SendDgramRes)
    (ds : List (List Nat)) :
    ∀ i, (datagramWorker send (ds.map DgramEvent.recvOk) i).sent = ds := by
  induction ds with
  | nil => intro i; rfl
  | cons d ds ih => intro i; simp [datagramWorker, ih]

/-- The datagram worker echoes back exactly the payloads received before the
first receive error. -/
lemma datagramWorker_sent_until_err (send : Nat → SendDgramRes)
    (ds : List (List Nat)) (e : ConnectionError) (rest : List DgramEvent) :
    ∀ i, (datagramWorker send
      (ds.map DgramEvent.recvOk ++ DgramEvent.recvErr e :: rest) i).sent = ds := by
  induction ds with
  | nil => intro i; rfl
  | cons d ds ih => intro i; simp [datagramWorker, ih]

/-- Neither the echoed payloads nor the termination of the datagram worker
depend on the send_datagram results. -/
lemma datagramWorker_send_irrelevant (s1 s2 : Nat → SendDgramRes)
    (evs : List DgramEvent) :
    ∀ i j, (datagramWorker s1 evs i).sent = (datagramWorker s2 evs j).sent ∧
      (datagramWorker s1 evs i).terminated = (datagramWorker s2 evs j).terminated := by
  induction evs with
  | nil => intro i j; exact ⟨rfl, rfl⟩
  | cons ev evs ih =>
      intro i j
      cases ev with
      | recvErr e => exact ⟨rfl, rfl⟩
      | recvOk d =>
          have h := ih (i + 1) (j + 1)
          simp [datagramWorker, h.1, h.2]

/-- The datagram worker's loop has exited precisely when the receive trace
contains a receive error. -/
lemma datagramWorker_terminated_iff (send : Nat → SendDgramRes)
    (evs : List DgramEvent) :
    ∀ i, (datagramWorker send evs i).terminated = evs.any isRecvErr := by
  induction evs with
  | nil => intro i; rfl
  | cons ev evs ih =>
      intro i
      cases ev with
      | recvErr e => simp [datagramWorker, isRecvErr]
      | recvOk d => simp [datagramWorker, isRecvErr, ih (i + 1)]

/-! ## Claim theorems -/

/-- Claim C1: for every payload P no longer than the client's stream read
budget, delivered to the server's echo task as any sequence of nonempty
reads of at most the 16 KiB buffer each, the task writes back exactly P and
reaches finish, and the client's read-to-end of that response within the
budget yields Ok(P) — the stream exchange is the identity, byte for byte and
in order. -/
theorem stream_echo_identity (P : List Nat) (chunks : List (List Nat))
    (hjoin : chunks.flatten = P)
    (hne : ∀ c ∈ chunks, c ≠ [])
    (hsz : ∀ c ∈ chunks, c.length ≤ 16 * 1024)
    (hbudget : P.length ≤ streamReadBudget) :
    (echoTask (fun _ => WriteRes.wOk)
        (chunks.map StreamReadRes.ok ++ [StreamReadRes.ok []]) 0).2 = true ∧
    streamExchange (Except.ok ()) (Except.ok ()) (Except.ok ())
      (RecvWithin.onTime (read_to_end streamReadBudget
        (echoTask (fun _ => WriteRes.wOk)
          (chunks.map StreamReadRes.ok ++ [StreamReadRes.ok []]) 0).1)) =
      Except.ok P := by
  have he := echoTask_all_writes_ok chunks hne 0
  rw [he, hjoin]
  have hr : read_to_end streamReadBudget P = Except.ok P := by
    simp [read_to_end, Nat.not_lt.mpr hbudget]
  exact ⟨rfl, by rw [hr]; rfl⟩


/-- Witness for C1 at the concrete payload "ping" delivered in one chunk. -/
theorem stream_echo_identity_witness :
    ([[112, 105, 110, 103]] : List (List Nat)).flatten = [112, 105, 110, 103] ∧
    (∀ c ∈ ([[112, 105, 110, 103]] : List (List Nat)), c ≠ []) ∧
    (∀ c ∈ ([[112, 105, 110, 103]] : List (List Nat)), c.length ≤ 16 * 1024) ∧
    ([112, 105, 110, 103] : List Nat).length ≤ streamReadBudget ∧
    ((echoTask (fun _ => WriteRes.wOk)
        (([[112, 105, 110, 103]] : List (List Nat)).map StreamReadRes.ok ++
          [StreamReadRes.ok []]) 0).2 = true ∧
      streamExchange (Except.ok ()) (Except.ok ()) (Except.ok ())
        (RecvWithin.onTime (read_to_end streamReadBudget
          (echoTask (fun _ => WriteRes.wOk)
            (([[112, 105, 110, 103]] : List (List Nat)).map StreamReadRes.ok ++
              [StreamReadRes.ok []]) 0).1)) =
        Except.ok [112, 105, 110, 103]) :=
  ⟨rfl, by decide, by decide, by decide,
    stream_echo_identity [112, 105, 110, 103] [[112, 105, 110, 103]]
      rfl (by decide) (by decide) (by decide)⟩

/-- Claim C2: for every receive trace, with any send results, the datagram
worker passes to send_datagram exactly the received payloads, unchanged,
once each and in order — both while receives keep succeeding and when the
trace ends in a receive error. -/
theorem datagram_echo_identity (send : Nat → SendDgramRes)
    (ds : List (List Nat)) (e : ConnectionError) (rest : List DgramEvent) :
    (datagramWorker send (ds.map DgramEvent.recvOk) 0).sent = ds ∧
    (datagramWorker send
      (ds.map DgramEvent.recvOk ++ DgramEvent.recvErr e :: rest) 0).sent = ds :=
  ⟨datagramWorker_sent_ok send ds 0,
    datagramWorker_sent_until_err send ds e rest 0⟩

/-- Claim C3: a send failure never changes what the datagram worker echoes
nor when it stops (send results are irrelevant to both); the worker's loop
exits exactly when a receive yields an error; and the worker is a detached
spawned task, so its termination propagates no error beyond it. -/
theorem datagram_worker_error_policy (s1 s2 : Nat → SendDgramRes)
    (evs : List DgramEvent) :
    (datagramWorker s1 evs 0).sent = (datagramWorker s2 evs 0).sent ∧
    (datagramWorker s1 evs 0).terminated = (datagramWorker s2 evs 0).terminated ∧
    (datagramWorker s1 evs 0).terminated = evs.any isRecvErr ∧
    handle_incoming_structure.datagramWorkerScheduling = TaskScheduling.spawnedTask :=
  ⟨(datagramWorker_send_irrelevant s1 s2 evs 0 0).1,
    (datagramWorker_send_irrelevant s1 s2 evs 0 0).2,
    datagramWorker_terminated_iff s1 evs 0, rfl⟩

/-- Claim C4: after any number of successfully accepted streams, the
stream-accept loop returns Ok exactly when accept_bi fails with
ApplicationClosed, and returns any other connection error to its caller. -/
theorem stream_accept_loop_closure (ss : List AcceptBiRes)
    (h : ∀ s ∈ ss, s = AcceptBiRes.stream)
    (e : ConnectionError) (rest : List AcceptBiRes) :
    (streamAcceptLoop (ss ++ AcceptBiRes.err e :: rest) = some (Except.ok ()) ↔
      isApplicationClosed e = true) ∧
    (isApplicationClosed e = false →
      streamAcceptLoop (ss ++ AcceptBiRes.err e :: rest) = some (Except.error e)) := by
  induction ss with
  | nil => cases e <;> simp [streamAcceptLoop, isApplicationClosed]
  | cons s ss ih =>
      have hs : s = AcceptBiRes.stream := h s (by simp)
      subst hs
      simpa [streamAcceptLoop] using
        ih (fun x hx => h x (List.mem_cons_of_mem _ hx))

/-- Witness for C4: one accepted stream, then an application-level close. -/
theorem stream_accept_loop_closure_witness :
    (∀ s ∈ [AcceptBiRes.stream], s = AcceptBiRes.stream) ∧
    ((streamAcceptLoop ([AcceptBiRes.stream] ++
        AcceptBiRes.err (ConnectionError.applicationClosed 0) :: []) =
          some (Except.ok ()) ↔
        isApplicationClosed (ConnectionError.applicationClosed 0) = true) ∧
      (isApplicationClosed (ConnectionError.applicationClosed 0) = false →
        streamAcceptLoop ([AcceptBiRes.stream] ++
          AcceptBiRes.err (ConnectionError.applicationClosed 0) :: []) =
            some (Except.error (ConnectionError.applicationClosed 0)))) :=
  ⟨by decide,
    stream_accept_loop_closure [AcceptBiRes.stream] (by decide)
      (ConnectionError.applicationClosed 0) []⟩

/-- Claim C5 counterexample: with no accept_bi outcome yet (the loop still
waiting), handle_incoming has not returned — it blocks on the inline
stream-accept loop rather than returning as soon as both workers are
scheduled, and the stream-accept loop is not a spawned task. -/
theorem supervisor_returns_early_counterexample :
    (handle_incoming []).result = none ∧
    handle_incoming_structure.streamAcceptLoopScheduling ≠
      TaskScheduling.spawnedTask :=
  ⟨rfl, by decide⟩

/-- Claim C5 as amended: the supervisor spawns the datagram echo worker (and
each per-stream echo task) as detached tasks, but runs the stream-accept
loop inline: handle_incoming's return value is exactly the stream-accept
loop's outcome, so it returns only when that loop terminates. -/
theorem supervisor_scheduling :
    handle_incoming_structure.datagramWorkerScheduling =
      TaskScheduling.spawnedTask ∧
    handle_incoming_structure.streamAcceptLoopScheduling =
      TaskScheduling.inlineAwait ∧
    handle_incoming_structure.perStreamTaskScheduling =
      TaskScheduling.spawnedTask ∧
    ∀ t : List AcceptBiRes, (handle_incoming t).spawnedDatagramWorker = true ∧
      (handle_incoming t).result = streamAcceptLoop t :=
  ⟨rfl, rfl, rfl, fun t => ⟨rfl, rfl⟩⟩

/-- Claim C6: verify_server_cert accepts every input unconditionally, while
the TLS 1.2 and TLS 1.3 signature callbacks return exactly what the crypto
provider's verification returns (so they are not unconditional accepts: a
rejecting provider makes them reject). -/
theorem skip_server_verification_policy :
    (∀ (endEntity : List Nat) (intermediates : List (List Nat))
        (serverName : String) (ocsp : List Nat) (now : Nat),
      verify_server_cert endEntity intermediates serverName ocsp now =
        Except.ok ServerCertVerified.assertion) ∧
    (∀ (v : List Nat → List Nat → List Nat →
          Except TlsError HandshakeSignatureValid) (m c d : List Nat),
      skip_verify_tls12_signature v m c d = v m c d) ∧
    (∀ (v : List Nat → List Nat → List Nat →
          Except TlsError HandshakeSignatureValid) (m c d : List Nat),
      skip_verify_tls13_signature v m c d = v m c d) ∧
    (∃ (v : List Nat → List Nat → List Nat →
          Except TlsError HandshakeSignatureValid) (m c d : List Nat),
      skip_verify_tls12_signature v m c d ≠
        Except.ok HandshakeSignatureValid.assertion) ∧
    (∃ (v : List Nat → List Nat → List Nat →
          Except TlsError HandshakeSignatureValid) (m c d : List Nat),
      skip_verify_tls13_signature v m c d ≠
        Except.ok HandshakeSignatureValid.assertion) :=
  ⟨fun _ _ _ _ _ => rfl, fun _ _ _ _ => rfl, fun _ _ _ _ => rfl,
    ⟨fun _ _ _ => Except.error 0, [], [], [], by
      simp [skip_verify_tls12_signature]⟩,
    ⟨fun _ _ _ => Except.error 0, [], [], [], by
      simp [skip_verify_tls13_signature]⟩⟩

/-- Claim C7: server and client each configure a one-element ALPN protocol
list, and the two configured identifiers are the same byte string. -/
theorem alpn_single_and_identical :
    Server.alpn_protocols.length = 1 ∧ Client.alpn_protocols.length = 1 ∧
    Server.alpn_protocols = Client.alpn_protocols :=
  ⟨rfl, rfl, rfl⟩

/-- Claim C8: the exchange timeout is the fixed 5 seconds; in both modes an
elapsed timeout around the receive yields the timeout failure outcome, and a
connection error during the exchange (failed receive, failed datagram send,
failed stream open) surfaces as a single failure outcome of the run. -/
theorem client_timeout_and_conn_error_failure :
    exchangeTimeoutSecs = 5 ∧
    datagramExchange (Except.ok ()) RecvWithin.elapsed =
      Except.error ClientFailure.timeoutExpired ∧
    (∀ e, datagramExchange (Except.ok ()) (RecvWithin.onTime (Except.error e)) =
      Except.error (ClientFailure.connFailed e)) ∧
    (∀ e rv, datagramExchange (Except.error (SendDatagramError.connectionLost e)) rv =
      Except.error (ClientFailure.dgramSendFailed (SendDatagramError.connectionLost e))) ∧
    streamExchange (Except.ok ()) (Except.ok ()) (Except.ok ()) RecvWithin.elapsed =
      Except.error ClientFailure.timeoutExpired ∧
    (∀ e, streamExchange (Except.ok ()) (Except.ok ()) (Except.ok ())
        (RecvWithin.onTime (Except.error e)) =
      Except.error (ClientFailure.readFailed e)) ∧
    (∀ e wr fr rv, streamExchange (Except.error e) wr fr rv =
      Except.error (ClientFailure.openFailed e)) :=
  ⟨rfl, rfl, fun _ => rfl, fun _ _ => rfl, rfl, fun _ => rfl, fun _ _ _ _ => rfl⟩

/-- Claim C9: whenever the route probe yields no fields (the command failed
to run, or its output lacks them), the connect call is still reached and the
diagnostic line prints unknown for both fields. -/
theorem route_probe_best_effort (o : Option String)
    (h : route_get o = (none, none)) :
    (preConnect o).connectAttempted = true ∧
    (preConnect o).printedSrc = "unknown" ∧
    (preConnect o).printedDev = "unknown" := by
  simp [preConnect, h]

/-- Witness for C9: the route command failed to run at all. -/
theorem route_probe_best_effort_witness :
    route_get none = (none, none) ∧
    ((preConnect none).connectAttempted = true ∧
      (preConnect none).printedSrc = "unknown" ∧
      (preConnect none).printedDev = "unknown") :=
  ⟨rfl, route_probe_best_effort none rfl⟩

/-- Claim C10: the client's stream read budget is exactly 65536 bytes, and a
response longer than the budget makes the stream exchange fail with the
too-long read error — it is never reported as a truncated success. -/
theorem stream_read_budget_overflow (resp : List Nat)
    (h : streamReadBudget < resp.length) :
    streamReadBudget = 65536 ∧
    streamExchange (Except.ok ()) (Except.ok ()) (Except.ok ())
      (RecvWithin.onTime (read_to_end streamReadBudget resp)) =
      Except.error (ClientFailure.readFailed ReadToEndError.tooLong) ∧
    (∀ r : List Nat,
      streamExchange (Except.ok ()) (Except.ok ()) (Except.ok ())
        (RecvWithin.onTime (read_to_end streamReadBudget resp)) ≠
        Except.ok r) := by
  have hr : read_to_end streamReadBudget resp =
      Except.error ReadToEndError.tooLong := by
    simp [read_to_end, h]
  rw [hr]
  exact ⟨rfl, rfl, fun r => by simp [streamExchange]⟩

/-- Witness for C10: a 65537-byte response exceeds the budget and fails. -/
theorem stream_read_budget_overflow_witness :
    streamReadBudget < (List.replicate 65537 (0 : Nat)).length ∧
    (streamReadBudget = 65536 ∧
      streamExchange (Except.ok ()) (Except.ok ()) (Except.ok ())
        (RecvWithin.onTime (read_to_end streamReadBudget
          (List.replicate 65537 (0 : Nat)))) =
        Except.error (ClientFailure.readFailed ReadToEndError.tooLong) ∧
      (∀ r : List Nat,
        streamExchange (Except.ok ()) (Except.ok ()) (Except.ok ())
          (RecvWithin.onTime (read_to_end streamReadBudget
            (List.replicate 65537 (0 : Nat)))) ≠ Except.ok r)) :=
  have h : streamReadBudget < (List.replicate 65537 (0 : Nat)).length := by
    rw [List.length_replicate]; decide
  ⟨h, stream_read_budget_overflow (List.replicate 65537 0) h⟩

end QuicEcho
